import Mathlib

/-!
Shallow embedding of the browser page-controller scripts of the
ai-document-assistant repository.

The repository contains four iterations of the same page-controller script:
  - `v1` : src/static/js/script.js, first DOMContentLoaded block (lines 1-212)
  - `v2` : src/static/js/script.js, second DOMContentLoaded block (lines 213-463)
  - `p0` : src/unnamed/part_000
  - `p1` : src/unnamed/part_001
Each iteration wires DOM elements to backend fetch calls.  The embedding
models the DOM state touched by the scripts (chat transcript, session list,
status line, chat input, progress bar) as explicit records, network calls
as request values paired with an environment-supplied fetch result, and the
third-party showdown markdown converter as an abstract `Rendered.markdownHtml`
constructor recording the exact source string handed to `converter.makeHtml`.
-/

/-- HTTP method of a fetch call made by the scripts. -/
inductive Method
  | get
  | post
  | del
deriving DecidableEq, Repr

/-- Body of a fetch call: no body, a multipart form-data body built from the
upload form, or the JSON chat body with fields session_id and user_question. -/
inductive RequestBody
  | empty
  | formData
  | jsonChat (session_id : String) (user_question : String)
deriving DecidableEq, Repr

/-- One network request issued by a script via fetch. -/
structure Request where
  url : String
  method : Method
  body : RequestBody
deriving DecidableEq, Repr

/-- Content of a chat bubble DOM node: `plainText s` stands for assigning `s`
via textContent, `markdownHtml s` stands for assigning via innerHTML the HTML
produced by the third-party showdown converter applied to the source string
`s` (converter.makeHtml(s)).  The converter itself is third-party code and is
kept abstract; the constructor records its exact input. -/
inductive Rendered
  | plainText (s : String)
  | markdownHtml (s : String)
deriving DecidableEq, Repr

/-- One child of the chat-box element: a finished message bubble carrying the
role string used to style it, or the animated thinking-indicator wrapper. -/
inductive ChatItem
  | bubble (role : String) (content : Rendered)
  | thinking
deriving DecidableEq, Repr

/-- The chat-box element: whether the welcome header div (class chat-header)
is present, and the list of message items in DOM order. -/
structure ChatBoxState where
  hasHeader : Bool
  items : List ChatItem
deriving DecidableEq, Repr

/-- One entry of the session list, as rendered from a backend session record. -/
structure SessionEntry where
  session_id : String
  file_names : List String
  timestamp : Nat
deriving DecidableEq, Repr

/-- One message of a stored chat history, as returned by /get_session/:id. -/
structure HistoryMsg where
  role : String
  content : String
deriving DecidableEq, Repr

/-- The mutable page state the scripts read and write: the active session id
(null modelled as none), the chat box, the session list in DOM order, an
optional placeholder notice div in the session list, the status line text and
its color class kind, whether the chat input and send button are enabled, and
the current text of the chat input field. -/
structure AppState where
  activeSessionId : Option String
  chatBox : ChatBoxState
  sessions : List SessionEntry
  sessionsNotice : Option String
  statusText : String
  statusType : String
  inputEnabled : Bool
  inputValue : String
deriving DecidableEq, Repr

/-- Outcome of one fetch call as observed by the script: the promise resolved
and response.json() parsed (with the response ok flag and parsed data), or the
fetch rejected / json parsing threw, surfacing an error message. -/
inductive FetchResult (α : Type)
  | success (ok : Bool) (data : α)
  | networkError (message : String)
deriving DecidableEq, Repr

/-- JavaScript string-or idiom: `s || d` yields `d` when `s` is empty. -/
def jsOr (s d : String) : String := if s = "" then d else s

/-- JavaScript truthiness of a nullable string (null and the empty string are
falsy). -/
def jsTruthy : Option String → Bool
  | none => false
  | some s => s ≠ ""

/-- String.prototype.trim(): strips leading and trailing whitespace.  Defined
on the character list so that it evaluates inside the kernel. -/
def jsTrim (s : String) : String :=
  ⟨((s.data.dropWhile Char.isWhitespace).reverse.dropWhile Char.isWhitespace).reverse⟩

/-- String.prototype.replaceAll with the single-character pattern used at
part_001 183 and 185: every underscore is replaced by a backslash followed by
an underscore.  Defined on the character list so that it evaluates inside the
kernel. -/
def escapeUnderscores (s : String) : String :=
  ⟨s.data.foldr (fun c acc => if c = '_' then '\\' :: '_' :: acc else c :: acc) []⟩

/-! ## Shared UI helper functions

The helper functions below appear, with identical observable behaviour, in
several iterations; css class strings differ between iterations but carry no
modelled state.  Source locations are listed on each definition. -/

/-- showStatus(message, type): sets the status line text and records the kind
of color class chosen from the type argument.  Sources: script.js 130-141 and
399-404, part_000 259-264, part_001 307-313. -/
def showStatus (message ty : String) (st : AppState) : AppState :=
  { st with statusText := message, statusType := ty }

/-- enableChat(enabled) / enableChatInput(enabled): enables or disables the
chat input and the send button (the focus call is display-only).  Sources:
script.js 143-146 and 406-410, part_000 266-270, part_001 315-319. -/
def enableChatInput (enabled : Bool) (st : AppState) : AppState :=
  { st with inputEnabled := enabled }

/-- clearChatBox(): empties the chat box and appends the welcome header div.
Sources: script.js 388-397, part_000 248-257, part_001 286-305. -/
def clearChatBox (st : AppState) : AppState :=
  { st with chatBox := { hasHeader := true, items := [] } }

/-- appendMessage(content, role) of iteration v1 (script.js 148-171): appends
a bubble to the chat box; a user bubble is assigned via textContent, any other
role via innerHTML from converter.makeHtml(content).  v1 has no welcome
header, so the header flag is untouched. -/
def appendMessage (content role : String) (cb : ChatBoxState) : ChatBoxState :=
  if role = "user" then
    { cb with items := cb.items ++ [.bubble role (.plainText content)] }
  else
    { cb with items := cb.items ++ [.bubble role (.markdownHtml content)] }

/-- appendMessageToChat(content, role) of iterations v2, p0 and p1
(script.js 412-436, part_000 272-295, part_001 321-344): removes the welcome
header if present, then appends a bubble; a user bubble is assigned via
textContent, any other role via innerHTML from converter.makeHtml(content). -/
def appendMessageToChat (content role : String) (cb : ChatBoxState) : ChatBoxState :=
  let cb := { cb with hasHeader := false }
  if role = "user" then
    { cb with items := cb.items ++ [.bubble role (.plainText content)] }
  else
    { cb with items := cb.items ++ [.bubble role (.markdownHtml content)] }

/-- showThinkingIndicator(): appends the animated thinking wrapper to the chat
box and returns it.  Sources: script.js 173-198 and 438-457, part_000 297-316,
part_001 346-365. -/
def showThinkingIndicator (cb : ChatBoxState) : ChatBoxState :=
  { cb with items := cb.items ++ [.thinking] }

/-- updateThinkingIndicator(indicator, newContent, newRole): replaces the
content of the thinking wrapper with innerHTML from
converter.makeHtml(newContent), styled from newRole.  Every call site passes
the wrapper just returned by showThinkingIndicator, which is still the last
chat-box child when the update runs, so the model rewrites the last item.
Sources: script.js 200-211 and 459-463, part_000 318-322, part_001 367-371. -/
def updateThinkingIndicator (cb : ChatBoxState) (newContent newRole : String) : ChatBoxState :=
  { cb with items := cb.items.dropLast ++ [.bubble newRole (.markdownHtml newContent)] }

/-! ## Backend response payloads -/

/-- Parsed JSON of a /chat response.  An absent field is modelled as the empty
string, matching its falsiness under the JavaScript or-idiom. -/
structure ChatData where
  answer : String
  error : String
deriving DecidableEq, Repr

/-- Parsed JSON of a /get_session/:id response. -/
structure SessionData where
  chat_history : List HistoryMsg
  file_names : List String
  error : String
deriving DecidableEq, Repr

/-- Parsed JSON of a /process_pdfs or /process_files response. -/
structure ProcData where
  session_id : String
  file_names : List String
  error : String
deriving DecidableEq, Repr

/-- Parsed JSON of a /delete_session/:id response. -/
structure DeleteData where
  error : String
deriving DecidableEq, Repr

/-! ## Chat form submit handlers -/

/-- Result of one run of a chat form submit handler: the final page state,
the fetch requests the handler itself issued, whether it went on to call
fetchAllSessions afterwards, and whether it passed the guard, disabled the
input while the request was in flight, and showed the thinking indicator. -/
structure ChatSubmitResult where
  state : AppState
  requests : List Request
  calledFetchAllSessions : Bool
  guardPassed : Bool
  disabledDuring : Bool
  showedThinking : Bool
deriving Repr

/-- The request issued by every chat submit handler. -/
def chatRequest (sid question : String) : Request :=
  { url := "/chat", method := .post, body := .jsonChat sid question }

/-- Chat submit handler of iteration v1 (script.js 93-128).  Trims the input;
returns unchanged when the trimmed question or the session id is falsy;
otherwise appends the user bubble, clears and disables the input, shows the
thinking indicator, POSTs the JSON chat body, and on ok renders data.answer as
assistant markdown into the indicator, on any failure renders the error text
into the indicator with role error; finally re-enables the input. -/
def chatSubmit_v1 (st : AppState) (resp : FetchResult ChatData) : ChatSubmitResult :=
  let question := jsTrim st.inputValue
  if question = "" ∨ ¬ jsTruthy st.activeSessionId then
    { state := st, requests := [], calledFetchAllSessions := false,
      guardPassed := false, disabledDuring := false, showedThinking := false }
  else
    let sid := st.activeSessionId.getD ""
    let st := { st with chatBox := appendMessage question "user" st.chatBox, inputValue := "" }
    let st := enableChatInput false st
    let st := { st with chatBox := showThinkingIndicator st.chatBox }
    let st :=
      match resp with
      | .success true data =>
          { st with chatBox := updateThinkingIndicator st.chatBox data.answer "assistant" }
      | .success false data =>
          let msg := jsOr data.error "Failed to get a response."
          { st with chatBox := updateThinkingIndicator st.chatBox ("Sorry, an error occurred: " ++ msg) "error" }
      | .networkError m =>
          { st with chatBox := updateThinkingIndicator st.chatBox ("Sorry, an error occurred: " ++ m) "error" }
    let st := enableChatInput true st
    { state := st, requests := [chatRequest sid question], calledFetchAllSessions := false,
      guardPassed := true, disabledDuring := true, showedThinking := true }

/-- Chat submit handler of iteration v2 (script.js 265-292): as v1 but the
bubbles go through appendMessageToChat, which removes the welcome header. -/
def chatSubmit_v2 (st : AppState) (resp : FetchResult ChatData) : ChatSubmitResult :=
  let question := jsTrim st.inputValue
  if question = "" ∨ ¬ jsTruthy st.activeSessionId then
    { state := st, requests := [], calledFetchAllSessions := false,
      guardPassed := false, disabledDuring := false, showedThinking := false }
  else
    let sid := st.activeSessionId.getD ""
    let st := { st with chatBox := appendMessageToChat question "user" st.chatBox, inputValue := "" }
    let st := enableChatInput false st
    let st := { st with chatBox := showThinkingIndicator st.chatBox }
    let st :=
      match resp with
      | .success true data =>
          { st with chatBox := updateThinkingIndicator st.chatBox data.answer "assistant" }
      | .success false data =>
          let msg := jsOr data.error "Failed to get a response."
          { st with chatBox := updateThinkingIndicator st.chatBox ("Sorry, an error occurred: " ++ msg) "error" }
      | .networkError m =>
          { st with chatBox := updateThinkingIndicator st.chatBox ("Sorry, an error occurred: " ++ m) "error" }
    let st := enableChatInput true st
    { state := st, requests := [chatRequest sid question], calledFetchAllSessions := false,
      guardPassed := true, disabledDuring := true, showedThinking := true }

/-- Chat submit handler of iteration p0 (part_000 48-80): as v2, and after a
successful response it calls fetchAllSessions when the active session id has
no entry in the session list yet. -/
def chatSubmit_p0 (st : AppState) (resp : FetchResult ChatData) : ChatSubmitResult :=
  let question := jsTrim st.inputValue
  if question = "" ∨ ¬ jsTruthy st.activeSessionId then
    { state := st, requests := [], calledFetchAllSessions := false,
      guardPassed := false, disabledDuring := false, showedThinking := false }
  else
    let sid := st.activeSessionId.getD ""
    let st := { st with chatBox := appendMessageToChat question "user" st.chatBox, inputValue := "" }
    let st := enableChatInput false st
    let st := { st with chatBox := showThinkingIndicator st.chatBox }
    let result :=
      match resp with
      | .success true data =>
          let st := { st with chatBox := updateThinkingIndicator st.chatBox data.answer "assistant" }
          ((st, !(st.sessions.any (fun s0 => s0.session_id == sid))) : AppState × Bool)
      | .success false data =>
          let msg := jsOr data.error "Failed to get a response."
          ({ st with chatBox := updateThinkingIndicator st.chatBox ("Sorry, an error occurred: " ++ msg) "error" }, false)
      | .networkError m =>
          ({ st with chatBox := updateThinkingIndicator st.chatBox ("Sorry, an error occurred: " ++ m) "error" }, false)
    let st := enableChatInput true result.1
    { state := st, requests := [chatRequest sid question], calledFetchAllSessions := result.2,
      guardPassed := true, disabledDuring := true, showedThinking := true }

/-- Chat submit handler of iteration p1 (part_001 62-92): as v2, and after a
successful response it always calls fetchAllSessions to refresh the list. -/
def chatSubmit_p1 (st : AppState) (resp : FetchResult ChatData) : ChatSubmitResult :=
  let question := jsTrim st.inputValue
  if question = "" ∨ ¬ jsTruthy st.activeSessionId then
    { state := st, requests := [], calledFetchAllSessions := false,
      guardPassed := false, disabledDuring := false, showedThinking := false }
  else
    let sid := st.activeSessionId.getD ""
    let st := { st with chatBox := appendMessageToChat question "user" st.chatBox, inputValue := "" }
    let st := enableChatInput false st
    let st := { st with chatBox := showThinkingIndicator st.chatBox }
    let result :=
      match resp with
      | .success true data =>
          (({ st with chatBox := updateThinkingIndicator st.chatBox data.answer "assistant" }, true) : AppState × Bool)
      | .success false data =>
          let msg := jsOr data.error "Failed to get a response."
          ({ st with chatBox := updateThinkingIndicator st.chatBox ("Sorry, an error occurred: " ++ msg) "error" }, false)
      | .networkError m =>
          ({ st with chatBox := updateThinkingIndicator st.chatBox ("Sorry, an error occurred: " ++ m) "error" }, false)
    let st := enableChatInput true result.1
    { state := st, requests := [chatRequest sid question], calledFetchAllSessions := result.2,
      guardPassed := true, disabledDuring := true, showedThinking := true }

/-! ## Session switching -/

/-- Result of an operation that issues fetch calls and may delegate to other
modelled operations: the final page state, the fetch requests this operation
issued directly, whether it called fetchAllSessions, and the session id it
passed to switchSession when it did. -/
structure OpResult where
  state : AppState
  requests : List Request
  calledFetchAllSessions : Bool
  switchedTo : Option String
deriving Repr

/-- The request issued by every switchSession variant. -/
def getSessionRequest (sessionId : String) : Request :=
  { url := "/get_session/" ++ sessionId, method := .get, body := .empty }

/-- Greeting shown by iterations v2 and p0 when the loaded history is empty
(script.js 346, part_000 167). -/
def emptyHistoryGreeting (file_names : List String) : String :=
  "Hello! I'm ready to answer questions about " ++ String.intercalate ", " file_names ++ "."

/-- Markdown-bold file name list of the p1 greetings (part_001 183 and 185):
the names are joined with bold separators and underscores are escaped. -/
def boldFileNames (file_names : List String) : String :=
  escapeUnderscores (String.intercalate "**, **" file_names)

/-- Greeting shown by iteration p1 when the loaded history is empty
(part_001 183). -/
def emptyHistoryGreeting_p1 (file_names : List String) : String :=
  "Hello! I'm ready to answer questions about **" ++ boldFileNames file_names ++ "**."

/-- Greeting shown by iteration p1 when the loaded history is non-empty
(part_001 185). -/
def nonemptyHistoryGreeting_p1 (file_names : List String) : String :=
  "Hello! Your questions about **" ++ boldFileNames file_names ++ "**."

/-- switchSession(sessionId) of iteration v2 (script.js 336-356).  On an ok
response it makes the session active, clears the chat box, replays every
stored message through appendMessageToChat, appends a greeting when the
history is empty, enables the input and shows a success status; on any
failure it shows the error in the status line.  The session-list class
toggling of updateActiveSessionInList is display-only. -/
def switchSession_v2 (sessionId : String) (resp : FetchResult SessionData)
    (st : AppState) : OpResult :=
  let req := getSessionRequest sessionId
  match resp with
  | .success true data =>
      let st := { st with activeSessionId := some sessionId }
      let st := clearChatBox st
      let st := data.chat_history.foldl
        (fun s msg => { s with chatBox := appendMessageToChat msg.content msg.role s.chatBox }) st
      let st :=
        if data.chat_history.length = 0 then
          { st with chatBox := appendMessageToChat (emptyHistoryGreeting data.file_names) "assistant" st.chatBox }
        else st
      let st := enableChatInput true st
      let st := showStatus ("Active session: " ++ (String.intercalate ", " data.file_names).take 30 ++ "...") "success" st
      { state := st, requests := [req], calledFetchAllSessions := false, switchedTo := none }
  | .success false data =>
      let msg := jsOr data.error "Failed to load session."
      { state := showStatus ("Error switching session: " ++ msg) "error" st,
        requests := [req], calledFetchAllSessions := false, switchedTo := none }
  | .networkError m =>
      { state := showStatus ("Error switching session: " ++ m) "error" st,
        requests := [req], calledFetchAllSessions := false, switchedTo := none }

/-- switchSession(sessionId) of iteration p0 (part_000 157-178): as v2, and
its catch additionally disables the chat input. -/
def switchSession_p0 (sessionId : String) (resp : FetchResult SessionData)
    (st : AppState) : OpResult :=
  let req := getSessionRequest sessionId
  match resp with
  | .success true data =>
      let st := { st with activeSessionId := some sessionId }
      let st := clearChatBox st
      let st := data.chat_history.foldl
        (fun s msg => { s with chatBox := appendMessageToChat msg.content msg.role s.chatBox }) st
      let st :=
        if data.chat_history.length = 0 then
          { st with chatBox := appendMessageToChat (emptyHistoryGreeting data.file_names) "assistant" st.chatBox }
        else st
      let st := enableChatInput true st
      let st := showStatus ("Active session: " ++ (String.intercalate ", " data.file_names).take 30 ++ "...") "success" st
      { state := st, requests := [req], calledFetchAllSessions := false, switchedTo := none }
  | .success false data =>
      let msg := jsOr data.error "Failed to load session."
      let st := showStatus ("Error switching session: " ++ msg) "error" st
      { state := enableChatInput false st, requests := [req],
        calledFetchAllSessions := false, switchedTo := none }
  | .networkError m =>
      let st := showStatus ("Error switching session: " ++ m) "error" st
      { state := enableChatInput false st, requests := [req],
        calledFetchAllSessions := false, switchedTo := none }

/-- switchSession(sessionId) of iteration p1 (part_001 174-197): on an ok
response it makes the session active, clears the chat box, first appends a
greeting bubble (one wording for an empty history, another for a non-empty
one), then replays every stored message, enables the input and shows a
success status; its catch shows the error and disables the input. -/
def switchSession_p1 (sessionId : String) (resp : FetchResult SessionData)
    (st : AppState) : OpResult :=
  let req := getSessionRequest sessionId
  match resp with
  | .success true data =>
      let st := { st with activeSessionId := some sessionId }
      let st := clearChatBox st
      let st :=
        if data.chat_history.length = 0 then
          { st with chatBox := appendMessageToChat (emptyHistoryGreeting_p1 data.file_names) "assistant" st.chatBox }
        else
          { st with chatBox := appendMessageToChat (nonemptyHistoryGreeting_p1 data.file_names) "assistant" st.chatBox }
      let st := data.chat_history.foldl
        (fun s msg => { s with chatBox := appendMessageToChat msg.content msg.role s.chatBox }) st
      let st := enableChatInput true st
      let st := showStatus ("Active session: " ++ String.intercalate ", " data.file_names) "success" st
      { state := st, requests := [req], calledFetchAllSessions := false, switchedTo := none }
  | .success false data =>
      let msg := jsOr data.error "Failed to load session."
      let st := showStatus ("Error switching session: " ++ msg) "error" st
      { state := enableChatInput false st, requests := [req],
        calledFetchAllSessions := false, switchedTo := none }
  | .networkError m =>
      let st := showStatus ("Error switching session: " ++ m) "error" st
      { state := enableChatInput false st, requests := [req],
        calledFetchAllSessions := false, switchedTo := none }

/-! ## Session deletion and session-list loading (iterations p0 and p1) -/

/-- deleteSession(sessionId) of iterations p0 and p1, whose bodies are
identical (part_000 181-210, part_001 200-229).  On an ok response the
session item is removed from the list; when the deleted session was the
active one the active id is reset, the chat box cleared, the input disabled
and a deletion status shown; when the list is left without children a
placeholder notice is installed.  On failure the error is shown in the
status line (and logged to the console). -/
def deleteSession (sessionId : String) (resp : FetchResult DeleteData)
    (st : AppState) : OpResult :=
  let req : Request := { url := "/delete_session/" ++ sessionId, method := .del, body := .empty }
  match resp with
  | .success true _ =>
      let st := { st with sessions := st.sessions.eraseP (fun s0 => s0.session_id == sessionId) }
      let st :=
        if st.activeSessionId = some sessionId then
          let st := { st with activeSessionId := none }
          let st := clearChatBox st
          let st := enableChatInput false st
          showStatus "Session deleted." "info" st
        else st
      let childCount := st.sessions.length + (if st.sessionsNotice.isSome then 1 else 0)
      let st :=
        if childCount = 0 then { st with sessionsNotice := some "No chat history found." }
        else st
      { state := st, requests := [req], calledFetchAllSessions := false, switchedTo := none }
  | .success false data =>
      let msg := jsOr data.error "Failed to delete session."
      { state := showStatus ("Error: " ++ msg) "error" st, requests := [req],
        calledFetchAllSessions := false, switchedTo := none }
  | .networkError m =>
      { state := showStatus ("Error: " ++ m) "error" st, requests := [req],
        calledFetchAllSessions := false, switchedTo := none }

/-- The request issued by fetchAllSessions. -/
def getAllSessionsRequest : Request :=
  { url := "/get_all_sessions", method := .get, body := .empty }

/-- fetchAllSessions() of iteration p0 (part_000 104-122).  On an ok response
the list is cleared and repopulated from the response; each entry is added
through addSessionToList, which prepends, so the final DOM order is the
reverse of the response order; an empty response installs a placeholder
notice.  On a non-ok response or a rejected fetch the catch logs the error to
the console and replaces the list with a fixed notice. -/
def fetchAllSessions_p0 (resp : FetchResult (List SessionEntry))
    (st : AppState) : OpResult :=
  match resp with
  | .success true data =>
      let st := { st with sessions := [], sessionsNotice := none }
      let st :=
        if data.length = 0 then
          { st with sessionsNotice := some "No chat history found." }
        else
          { st with sessions := data.reverse }
      { state := st, requests := [getAllSessionsRequest],
        calledFetchAllSessions := false, switchedTo := none }
  | .success false _ =>
      { state := { st with sessions := [], sessionsNotice := some "Could not load history." },
        requests := [getAllSessionsRequest], calledFetchAllSessions := false, switchedTo := none }
  | .networkError _ =>
      { state := { st with sessions := [], sessionsNotice := some "Could not load history." },
        requests := [getAllSessionsRequest], calledFetchAllSessions := false, switchedTo := none }

/-- fetchAllSessions() of iteration p1 (part_001 117-139): as p0, but
addSessionToList appends, so the DOM order equals the response order, and the
active entry is re-highlighted (display-only). -/
def fetchAllSessions_p1 (resp : FetchResult (List SessionEntry))
    (st : AppState) : OpResult :=
  match resp with
  | .success true data =>
      let st := { st with sessions := [], sessionsNotice := none }
      let st :=
        if data.length = 0 then
          { st with sessionsNotice := some "No chat history found." }
        else
          { st with sessions := data }
      { state := st, requests := [getAllSessionsRequest],
        calledFetchAllSessions := false, switchedTo := none }
  | .success false _ =>
      { state := { st with sessions := [], sessionsNotice := some "Could not load history." },
        requests := [getAllSessionsRequest], calledFetchAllSessions := false, switchedTo := none }
  | .networkError _ =>
      { state := { st with sessions := [], sessionsNotice := some "Could not load history." },
        requests := [getAllSessionsRequest], calledFetchAllSessions := false, switchedTo := none }

/-! ## Document upload and processing -/

/-- Result of one run of an upload form submit handler (including the inlined
or delegated processNewSession body): the final page state, the fetch requests
issued directly, the direct writes to the progress bar width in percent and in
program order (interval ticks are modelled separately by the progressTick
functions), the final text of the progress label, and the delegated calls. -/
structure ProcessResult where
  state : AppState
  requests : List Request
  widthWrites : List ℚ
  progressLabel : String
  calledFetchAllSessions : Bool
  switchedTo : Option String
deriving Repr

/-- Upload form submit handler of iteration v1 (script.js 38-90).  With no
selected file it only shows an error status.  Otherwise it resets the status,
shows the progress bar at width 0, POSTs the form data to /process_pdfs, and
on ok stores the returned session id, writes width 100, shows a success
status and enables the chat; on failure it hides the bar, shows the error in
the status line and disables the chat. -/
def uploadSubmit_v1 (filesCount : Nat) (resp : FetchResult ProcData)
    (st : AppState) : ProcessResult :=
  if filesCount = 0 then
    { state := showStatus "Please select at least one PDF file." "error" st,
      requests := [], widthWrites := [], progressLabel := "",
      calledFetchAllSessions := false, switchedTo := none }
  else
    let st := showStatus "" "info" st
    let req : Request := { url := "/process_pdfs", method := .post, body := .formData }
    match resp with
    | .success true data =>
        let st := { st with activeSessionId := some data.session_id }
        let st := showStatus "You can now ask questions." "success" st
        let st := enableChatInput true st
        { state := st, requests := [req], widthWrites := [0, 100],
          progressLabel := "Processing Complete!",
          calledFetchAllSessions := false, switchedTo := none }
    | .success false data =>
        let msg := jsOr data.error "Failed to process PDFs."
        let st := showStatus ("Error: " ++ msg) "error" st
        let st := enableChatInput false st
        { state := st, requests := [req], widthWrites := [0],
          progressLabel := "Uploading and processing...",
          calledFetchAllSessions := false, switchedTo := none }
    | .networkError m =>
        let st := showStatus ("Error: " ++ m) "error" st
        let st := enableChatInput false st
        { state := st, requests := [req], widthWrites := [0],
          progressLabel := "Uploading and processing...",
          calledFetchAllSessions := false, switchedTo := none }

/-- Upload form submit handler of iteration v2 together with the
processNewSession it awaits (script.js 254-262 and 305-334).  On ok it writes
width 100, prepends the new session to the list via addSessionToList
(script.js 361-379) and delegates to switchSession; on failure it shows the
error status.  The new list entry carries no timestamp in this iteration. -/
def uploadSubmit_v2 (filesCount : Nat) (resp : FetchResult ProcData)
    (st : AppState) : ProcessResult :=
  if filesCount = 0 then
    { state := showStatus "Please select at least one PDF file." "error" st,
      requests := [], widthWrites := [], progressLabel := "",
      calledFetchAllSessions := false, switchedTo := none }
  else
    let st := showStatus "" "info" st
    let req : Request := { url := "/process_pdfs", method := .post, body := .formData }
    match resp with
    | .success true data =>
        let entry : SessionEntry :=
          { session_id := data.session_id, file_names := data.file_names, timestamp := 0 }
        let st := { st with sessions := entry :: st.sessions }
        { state := st, requests := [req], widthWrites := [0, 100],
          progressLabel := "Processing Complete!",
          calledFetchAllSessions := false, switchedTo := some data.session_id }
    | .success false data =>
        let msg := jsOr data.error "Failed to process PDFs."
        let st := showStatus ("Error: " ++ msg) "error" st
        { state := st, requests := [req], widthWrites := [0],
          progressLabel := "Uploading and processing...",
          calledFetchAllSessions := false, switchedTo := none }
    | .networkError m =>
        let st := showStatus ("Error: " ++ m) "error" st
        { state := st, requests := [req], widthWrites := [0],
          progressLabel := "Uploading and processing...",
          calledFetchAllSessions := false, switchedTo := none }

/-- Upload form submit handler of iterations p0 and p1 together with the
processNewSession they await; the bodies are identical (part_000 39-46 and
125-155, part_001 53-60 and 142-172).  The upload endpoint is /process_files;
on ok it writes width 100 and delegates to fetchAllSessions and then to
switchSession with the returned session id; on failure it shows the error
status. -/
def processNewSession_p (filesCount : Nat) (resp : FetchResult ProcData)
    (st : AppState) : ProcessResult :=
  if filesCount = 0 then
    { state := showStatus "Please select at least one file." "error" st,
      requests := [], widthWrites := [], progressLabel := "",
      calledFetchAllSessions := false, switchedTo := none }
  else
    let st := showStatus "" "info" st
    let req : Request := { url := "/process_files", method := .post, body := .formData }
    match resp with
    | .success true data =>
        { state := st, requests := [req], widthWrites := [0, 100],
          progressLabel := "Processing Complete!",
          calledFetchAllSessions := true, switchedTo := some data.session_id }
    | .success false data =>
        let msg := jsOr data.error "Failed to process documents."
        let st := showStatus ("Error: " ++ msg) "error" st
        { state := st, requests := [req], widthWrites := [0],
          progressLabel := "Uploading and processing...",
          calledFetchAllSessions := false, switchedTo := none }
    | .networkError m =>
        let st := showStatus ("Error: " ++ m) "error" st
        { state := st, requests := [req], widthWrites := [0],
          progressLabel := "Uploading and processing...",
          calledFetchAllSessions := false, switchedTo := none }

/-! ## Simulated progress interval ticks

Math.random() returns a real number in the interval [0, 1); the model takes
the sampled value as a rational argument.  Each tick returns the new value of
the progress variable and the width written to the bar on that tick, when one
is written. -/

/-- One interval tick of iteration v1 (script.js 58-63): the progress variable
is increased, clamped to 95, and always written to the bar. -/
def progressTick_v1 (progress rand : ℚ) : ℚ × Option ℚ :=
  let progress := progress + rand * 10
  let progress := if progress > 95 then 95 else progress
  (progress, some progress)

/-- One interval tick of iteration v2 (script.js 311-315): the progress
variable is increased without clamping and written to the bar only while it
is below 95. -/
def progressTick_v2 (progress rand : ℚ) : ℚ × Option ℚ :=
  let progress := progress + rand * 10
  (progress, if progress < 95 then some progress else none)

/-- One interval tick of iteration p0 (part_000 131-135), identical to v2. -/
def progressTick_p0 (progress rand : ℚ) : ℚ × Option ℚ :=
  let progress := progress + rand * 10
  (progress, if progress < 95 then some progress else none)

/-- One interval tick of iteration p1 (part_001 148-152), identical to v2. -/
def progressTick_p1 (progress rand : ℚ) : ℚ × Option ℚ :=
  let progress := progress + rand * 10
  (progress, if progress < 95 then some progress else none)

/-! ## Derived notions used by the verification statements -/

/-- Written from the wording of the specification (section 1), for comparison
with the code: membership of a request in the five documented backend
endpoints /process_files (POST), /chat (POST), /get_all_sessions (GET),
/get_session/:id (GET) and /delete_session/:id (DELETE). -/
def isClaimedEndpoint (r : Request) : Bool :=
  (r.url == "/process_files" && r.method == .post) ||
  (r.url == "/chat" && r.method == .post) ||
  (r.url == "/get_all_sessions" && r.method == .get) ||
  ("/get_session/".data.isPrefixOf r.url.data && r.method == .get) ||
  ("/delete_session/".data.isPrefixOf r.url.data && r.method == .del)

/-- The endpoint set the scripts actually use: the five claimed endpoints
plus /process_pdfs (POST), the upload endpoint of both script.js iterations. -/
def isActualEndpoint (r : Request) : Bool :=
  (r.url == "/process_pdfs" && r.method == .post) || isClaimedEndpoint r

/-- The bubble produced when a stored history message is replayed through
appendMessageToChat with its stored role and content. -/
def renderHistoryMsg (m : HistoryMsg) : ChatItem :=
  if m.role = "user" then .bubble m.role (.plainText m.content)
  else .bubble m.role (.markdownHtml m.content)

/-- The error message surfaced to an operation's catch handler by a fetch
outcome: none when the response is ok, the thrown jsOr of the error field and
the operation's default text for a non-ok response, and the rejection message
when the fetch itself failed. -/
def caughtMessage {α : Type} (resp : FetchResult α) (errField : α → String)
    (dflt : String) : Option String :=
  match resp with
  | .success true _ => none
  | .success false d => some (jsOr (errField d) dflt)
  | .networkError m => some m

/-- A concrete page state with an active session and a typed question, used to
instantiate the theorems. -/
def sampleState : AppState :=
  { activeSessionId := some "s1"
    chatBox := { hasHeader := false, items := [] }
    sessions := [{ session_id := "s1", file_names := ["a.pdf"], timestamp := 5 }]
    sessionsNotice := none
    statusText := ""
    statusType := ""
    inputEnabled := true
    inputValue := "How many pages?" }

/-- A concrete session payload with a one-message stored history, used to
instantiate the theorems. -/
def sampleSessionData : SessionData :=
  { chat_history := [{ role := "user", content := "hi" }]
    file_names := ["a.pdf"]
    error := "" }

/-! ## Helper lemmas -/

/-- A string is a character-list prefix of any extension of itself. -/
theorem data_isPrefixOf_append (p s : String) : p.data.isPrefixOf (p ++ s).data = true := by
  rw [String.data_append]
  exact List.isPrefixOf_iff_prefix.mpr (List.prefix_append _ _)

/-- Appending a message adds exactly the bubble renderHistoryMsg describes. -/
theorem appendMessageToChat_items (content role : String) (cb : ChatBoxState) :
    (appendMessageToChat content role cb).items
      = cb.items ++ [renderHistoryMsg { role := role, content := content }] := by
  unfold appendMessageToChat renderHistoryMsg
  by_cases h : role = "user" <;> simp [h]

/-- Replaying a stored history through appendMessageToChat appends exactly its
rendering, in order. -/
theorem replay_history_items (hist : List HistoryMsg) (st : AppState) :
    (hist.foldl
        (fun s msg => { s with chatBox := appendMessageToChat msg.content msg.role s.chatBox })
        st).chatBox.items
      = st.chatBox.items ++ hist.map renderHistoryMsg := by
  induction hist generalizing st with
  | nil => simp
  | cons m ms ih =>
      rw [List.foldl_cons, ih]
      simp [appendMessageToChat_items]

/-- C6: every message appended to the transcript with an assistant or error
role displays the HTML produced by the showdown markdown converter applied to
the message content string; this covers the v1 append function, the shared
v2/p0/p1 append function, and the thinking-indicator update shared by all
iterations. -/
theorem c6_assistant_and_error_bubbles_use_markdown (content role : String)
    (cb : ChatBoxState) (h : role = "assistant" ∨ role = "error") :
    (appendMessage content role cb).items
      = cb.items ++ [.bubble role (.markdownHtml content)] ∧
    (appendMessageToChat content role cb).items
      = cb.items ++ [.bubble role (.markdownHtml content)] ∧
    (updateThinkingIndicator cb content role).items
      = cb.items.dropLast ++ [.bubble role (.markdownHtml content)] := by
  have hro : role ≠ "user" := by rcases h with rfl | rfl <;> decide
  refine ⟨?_, ?_, rfl⟩ <;> simp [appendMessage, appendMessageToChat, hro]

/-- Witness for C6 at a concrete assistant message on an empty chat box. -/
theorem c6_witness :
    (appendMessage "ok" "assistant" { hasHeader := false, items := [] }).items
      = [ChatItem.bubble "assistant" (.markdownHtml "ok")] :=
  (c6_assistant_and_error_bubbles_use_markdown "ok" "assistant"
    { hasHeader := false, items := [] } (Or.inl rfl)).1

/-- C8: user-role message content is always inserted into the transcript as
plain text via textContent, in the v1 append function, the shared v2/p0/p1
append function, and the history replay; it is never passed through the
markdown converter or assigned as innerHTML. -/
theorem c8_user_content_plain_text (content : String) (cb : ChatBoxState) :
    (appendMessage content "user" cb).items
      = cb.items ++ [.bubble "user" (.plainText content)] ∧
    (appendMessageToChat content "user" cb).items
      = cb.items ++ [.bubble "user" (.plainText content)] ∧
    renderHistoryMsg { role := "user", content := content }
      = .bubble "user" (.plainText content) := by
  refine ⟨?_, ?_, rfl⟩ <;> simp [appendMessage, appendMessageToChat]

/-- C4 (amended): when a session switch succeeds the transcript is cleared and
then shows the messages of the returned chat_history in order, each rendered
with its stored role; in iterations v2 and p0 a greeting listing the file
names is shown instead exactly when the history is empty, while iteration p1
always shows a greeting bubble naming the files before the history, with a
different wording when the history is empty. -/
theorem c4_switch_session_transcript (sessionId : String) (data : SessionData)
    (st : AppState) :
    (switchSession_v2 sessionId (.success true data) st).state.chatBox.items
      = (if data.chat_history.length = 0
          then [.bubble "assistant" (.markdownHtml (emptyHistoryGreeting data.file_names))]
          else data.chat_history.map renderHistoryMsg) ∧
    (switchSession_p0 sessionId (.success true data) st).state.chatBox.items
      = (if data.chat_history.length = 0
          then [.bubble "assistant" (.markdownHtml (emptyHistoryGreeting data.file_names))]
          else data.chat_history.map renderHistoryMsg) ∧
    (switchSession_p1 sessionId (.success true data) st).state.chatBox.items
      = .bubble "assistant" (.markdownHtml
            (if data.chat_history.length = 0
              then emptyHistoryGreeting_p1 data.file_names
              else nonemptyHistoryGreeting_p1 data.file_names))
        :: data.chat_history.map renderHistoryMsg := by
  refine ⟨?_, ?_, ?_⟩
  · unfold switchSession_v2
    by_cases hl : data.chat_history.length = 0
    · have hnil : data.chat_history = [] := List.length_eq_zero.mp hl
      simp [hnil, showStatus, enableChatInput, clearChatBox, appendMessageToChat]
    · simp [hl, showStatus, enableChatInput, replay_history_items, clearChatBox]
  · unfold switchSession_p0
    by_cases hl : data.chat_history.length = 0
    · have hnil : data.chat_history = [] := List.length_eq_zero.mp hl
      simp [hnil, showStatus, enableChatInput, clearChatBox, appendMessageToChat]
    · simp [hl, showStatus, enableChatInput, replay_history_items, clearChatBox]
  · by_cases hl : data.chat_history.length = 0
    · have hnil : data.chat_history = [] := List.length_eq_zero.mp hl
      simp [switchSession_p1, hnil, showStatus, enableChatInput, clearChatBox,
        appendMessageToChat]
    · unfold switchSession_p1
      simp only [if_neg hl, showStatus, enableChatInput]
      rw [replay_history_items]
      simp [appendMessageToChat, clearChatBox]

/-- C4 counterexample: on a successful switch with a non-empty stored history,
iteration p1 does not show exactly the messages of the history; a greeting
bubble precedes them. -/
theorem c4_counterexample :
    (switchSession_p1 "s1" (.success true sampleSessionData) sampleState).state.chatBox.items
      ≠ sampleSessionData.chat_history.map renderHistoryMsg := by
  decide

/-- C9: a successful session deletion removes only that session's entry from
the session list (the first entry with the deleted id); the active session id
and the chat transcript are cleared and the chat input disabled exactly when
the deleted session was the active one, and all of them, together with the
status line, are left unchanged otherwise.  deleteSession is the shared body
of iterations p0 and p1. -/
theorem c9_delete_session_frame (sessionId : String) (d : DeleteData) (st : AppState) :
    (deleteSession sessionId (.success true d) st).requests
      = [{ url := "/delete_session/" ++ sessionId, method := .del, body := .empty }] ∧
    (deleteSession sessionId (.success true d) st).state.sessions
      = st.sessions.eraseP (fun s0 => s0.session_id == sessionId) ∧
    (st.activeSessionId = some sessionId →
      (deleteSession sessionId (.success true d) st).state.activeSessionId = none ∧
      (deleteSession sessionId (.success true d) st).state.chatBox
        = { hasHeader := true, items := [] } ∧
      (deleteSession sessionId (.success true d) st).state.inputEnabled = false) ∧
    (st.activeSessionId ≠ some sessionId →
      (deleteSession sessionId (.success true d) st).state.activeSessionId
        = st.activeSessionId ∧
      (deleteSession sessionId (.success true d) st).state.chatBox = st.chatBox ∧
      (deleteSession sessionId (.success true d) st).state.inputEnabled
        = st.inputEnabled ∧
      (deleteSession sessionId (.success true d) st).state.statusText
        = st.statusText) := by
  unfold deleteSession
  by_cases ha : st.activeSessionId = some sessionId
  · simp only [if_pos ha, clearChatBox, enableChatInput, showStatus]
    refine ⟨by trivial, ?_, fun _ => ⟨?_, ?_, ?_⟩, fun hna => absurd ha hna⟩ <;>
      (split <;> split <;> simp)
  · simp only [if_neg ha, clearChatBox, enableChatInput, showStatus]
    refine ⟨by trivial, ?_, fun hp => absurd hp ha, fun _ => ⟨?_, ?_, ?_, ?_⟩⟩ <;>
      (split <;> split <;> simp)

/-- Witness for C9: deleting the active session of the sample state resets
the active session id. -/
theorem c9_witness :
    (deleteSession "s1" (.success true { error := "" }) sampleState).state.activeSessionId
      = none :=
  ((c9_delete_session_frame "s1" { error := "" } sampleState).2.2.1 (by decide)).1

/-- C10: submitting the chat form when the trimmed question is empty or when
no session is active is a complete no-op in every iteration: the page state is
returned unchanged, no request is issued, no session-list refresh is
triggered, and the handler records that it returned at the guard before any
effect. -/
theorem c10_chat_guard_noop (st : AppState) (resp : FetchResult ChatData)
    (h : jsTrim st.inputValue = "" ∨ jsTruthy st.activeSessionId = false) :
    (chatSubmit_v1 st resp).state = st ∧ (chatSubmit_v1 st resp).requests = [] ∧
    (chatSubmit_v1 st resp).guardPassed = false ∧
    (chatSubmit_v2 st resp).state = st ∧ (chatSubmit_v2 st resp).requests = [] ∧
    (chatSubmit_v2 st resp).guardPassed = false ∧
    (chatSubmit_p0 st resp).state = st ∧ (chatSubmit_p0 st resp).requests = [] ∧
    (chatSubmit_p0 st resp).guardPassed = false ∧
    (chatSubmit_p1 st resp).state = st ∧ (chatSubmit_p1 st resp).requests = [] ∧
    (chatSubmit_p1 st resp).guardPassed = false ∧
    (chatSubmit_p1 st resp).calledFetchAllSessions = false := by
  have h1 : chatSubmit_v1 st resp = ⟨st, [], false, false, false, false⟩ := by
    rcases h with h | h <;> simp [chatSubmit_v1, h]
  have h2 : chatSubmit_v2 st resp = ⟨st, [], false, false, false, false⟩ := by
    rcases h with h | h <;> simp [chatSubmit_v2, h]
  have h3 : chatSubmit_p0 st resp = ⟨st, [], false, false, false, false⟩ := by
    rcases h with h | h <;> simp [chatSubmit_p0, h]
  have h4 : chatSubmit_p1 st resp = ⟨st, [], false, false, false, false⟩ := by
    rcases h with h | h <;> simp [chatSubmit_p1, h]
  simp [h1, h2, h3, h4]

/-- Witness for C10 at a whitespace-only question. -/
theorem c10_witness :
    (chatSubmit_v1 { sampleState with inputValue := "   " } (.networkError "x")).requests
      = [] :=
  (c10_chat_guard_noop { sampleState with inputValue := "   " } (.networkError "x")
    (Or.inl (by decide))).2.1

/-- Full description of a v1 chat submit with a passing guard and an ok
response. -/
theorem chatSubmit_v1_ok (st : AppState) (sid : String) (data : ChatData)
    (hs : st.activeSessionId = some sid) (hsid : sid ≠ "")
    (hne : jsTrim st.inputValue ≠ "") :
    chatSubmit_v1 st (.success true data) =
      { state := { st with
          chatBox := { st.chatBox with items := st.chatBox.items ++
            [.bubble "user" (.plainText (jsTrim st.inputValue)),
             .bubble "assistant" (.markdownHtml data.answer)] },
          inputValue := "", inputEnabled := true },
        requests := [chatRequest sid (jsTrim st.inputValue)],
        calledFetchAllSessions := false, guardPassed := true,
        disabledDuring := true, showedThinking := true } := by
  have hguard : ¬(jsTrim st.inputValue = "" ∨ ¬ jsTruthy st.activeSessionId = true) := by
    rw [hs]; simp [jsTruthy, hne, hsid]
  simp only [chatSubmit_v1]
  rw [if_neg hguard]
  simp [hs, appendMessage, showThinkingIndicator, updateThinkingIndicator,
    enableChatInput, chatRequest]

/-- Full description of a v2 chat submit with a passing guard and an ok
response. -/
theorem chatSubmit_v2_ok (st : AppState) (sid : String) (data : ChatData)
    (hs : st.activeSessionId = some sid) (hsid : sid ≠ "")
    (hne : jsTrim st.inputValue ≠ "") :
    chatSubmit_v2 st (.success true data) =
      { state := { st with
          chatBox := { hasHeader := false, items := st.chatBox.items ++
            [.bubble "user" (.plainText (jsTrim st.inputValue)),
             .bubble "assistant" (.markdownHtml data.answer)] },
          inputValue := "", inputEnabled := true },
        requests := [chatRequest sid (jsTrim st.inputValue)],
        calledFetchAllSessions := false, guardPassed := true,
        disabledDuring := true, showedThinking := true } := by
  have hguard : ¬(jsTrim st.inputValue = "" ∨ ¬ jsTruthy st.activeSessionId = true) := by
    rw [hs]; simp [jsTruthy, hne, hsid]
  simp only [chatSubmit_v2]
  rw [if_neg hguard]
  simp [hs, appendMessageToChat, showThinkingIndicator, updateThinkingIndicator,
    enableChatInput, chatRequest]

/-- Full description of a p0 chat submit with a passing guard and an ok
response; the session list is refreshed exactly when the active session has
no entry in it. -/
theorem chatSubmit_p0_ok (st : AppState) (sid : String) (data : ChatData)
    (hs : st.activeSessionId = some sid) (hsid : sid ≠ "")
    (hne : jsTrim st.inputValue ≠ "") :
    chatSubmit_p0 st (.success true data) =
      { state := { st with
          chatBox := { hasHeader := false, items := st.chatBox.items ++
            [.bubble "user" (.plainText (jsTrim st.inputValue)),
             .bubble "assistant" (.markdownHtml data.answer)] },
          inputValue := "", inputEnabled := true },
        requests := [chatRequest sid (jsTrim st.inputValue)],
        calledFetchAllSessions := !(st.sessions.any (fun s0 => s0.session_id == sid)),
        guardPassed := true, disabledDuring := true, showedThinking := true } := by
  have hguard : ¬(jsTrim st.inputValue = "" ∨ ¬ jsTruthy st.activeSessionId = true) := by
    rw [hs]; simp [jsTruthy, hne, hsid]
  simp only [chatSubmit_p0]
  rw [if_neg hguard]
  simp [hs, appendMessageToChat, showThinkingIndicator, updateThinkingIndicator,
    enableChatInput, chatRequest]

/-- Full description of a p1 chat submit with a passing guard and an ok
response; the session list is always refreshed afterwards. -/
theorem chatSubmit_p1_ok (st : AppState) (sid : String) (data : ChatData)
    (hs : st.activeSessionId = some sid) (hsid : sid ≠ "")
    (hne : jsTrim st.inputValue ≠ "") :
    chatSubmit_p1 st (.success true data) =
      { state := { st with
          chatBox := { hasHeader := false, items := st.chatBox.items ++
            [.bubble "user" (.plainText (jsTrim st.inputValue)),
             .bubble "assistant" (.markdownHtml data.answer)] },
          inputValue := "", inputEnabled := true },
        requests := [chatRequest sid (jsTrim st.inputValue)],
        calledFetchAllSessions := true, guardPassed := true,
        disabledDuring := true, showedThinking := true } := by
  have hguard : ¬(jsTrim st.inputValue = "" ∨ ¬ jsTruthy st.activeSessionId = true) := by
    rw [hs]; simp [jsTruthy, hne, hsid]
  simp only [chatSubmit_p1]
  rw [if_neg hguard]
  simp [hs, appendMessageToChat, showThinkingIndicator, updateThinkingIndicator,
    enableChatInput, chatRequest]

/-- Full description of a v1 chat submit with a passing guard and a failing
call: the placeholder becomes an error bubble carrying the caught message. -/
theorem chatSubmit_v1_err (st : AppState) (sid msg : String)
    (resp : FetchResult ChatData)
    (hs : st.activeSessionId = some sid) (hsid : sid ≠ "")
    (hne : jsTrim st.inputValue ≠ "")
    (hmsg : caughtMessage resp ChatData.error "Failed to get a response." = some msg) :
    chatSubmit_v1 st resp =
      { state := { st with
          chatBox := { st.chatBox with items := st.chatBox.items ++
            [.bubble "user" (.plainText (jsTrim st.inputValue)),
             .bubble "error" (.markdownHtml ("Sorry, an error occurred: " ++ msg))] },
          inputValue := "", inputEnabled := true },
        requests := [chatRequest sid (jsTrim st.inputValue)],
        calledFetchAllSessions := false, guardPassed := true,
        disabledDuring := true, showedThinking := true } := by
  have hguard : ¬(jsTrim st.inputValue = "" ∨ ¬ jsTruthy st.activeSessionId = true) := by
    rw [hs]; simp [jsTruthy, hne, hsid]
  cases resp with
  | success ok d =>
      cases ok with
      | true => simp [caughtMessage] at hmsg
      | false =>
          simp only [caughtMessage, Option.some_inj] at hmsg
          simp only [chatSubmit_v1]
          rw [if_neg hguard]
          simp [hs, appendMessage, showThinkingIndicator, updateThinkingIndicator,
            enableChatInput, chatRequest, hmsg]
  | networkError m =>
      simp only [caughtMessage, Option.some_inj] at hmsg
      simp only [chatSubmit_v1]
      rw [if_neg hguard]
      simp [hs, appendMessage, showThinkingIndicator, updateThinkingIndicator,
        enableChatInput, chatRequest, hmsg]

/-- Full description of a v2 chat submit with a passing guard and a failing
call. -/
theorem chatSubmit_v2_err (st : AppState) (sid msg : String)
    (resp : FetchResult ChatData)
    (hs : st.activeSessionId = some sid) (hsid : sid ≠ "")
    (hne : jsTrim st.inputValue ≠ "")
    (hmsg : caughtMessage resp ChatData.error "Failed to get a response." = some msg) :
    chatSubmit_v2 st resp =
      { state := { st with
          chatBox := { hasHeader := false, items := st.chatBox.items ++
            [.bubble "user" (.plainText (jsTrim st.inputValue)),
             .bubble "error" (.markdownHtml ("Sorry, an error occurred: " ++ msg))] },
          inputValue := "", inputEnabled := true },
        requests := [chatRequest sid (jsTrim st.inputValue)],
        calledFetchAllSessions := false, guardPassed := true,
        disabledDuring := true, showedThinking := true } := by
  have hguard : ¬(jsTrim st.inputValue = "" ∨ ¬ jsTruthy st.activeSessionId = true) := by
    rw [hs]; simp [jsTruthy, hne, hsid]
  cases resp with
  | success ok d =>
      cases ok with
      | true => simp [caughtMessage] at hmsg
      | false =>
          simp only [caughtMessage, Option.some_inj] at hmsg
          simp only [chatSubmit_v2]
          rw [if_neg hguard]
          simp [hs, appendMessageToChat, showThinkingIndicator, updateThinkingIndicator,
            enableChatInput, chatRequest, hmsg]
  | networkError m =>
      simp only [caughtMessage, Option.some_inj] at hmsg
      simp only [chatSubmit_v2]
      rw [if_neg hguard]
      simp [hs, appendMessageToChat, showThinkingIndicator, updateThinkingIndicator,
        enableChatInput, chatRequest, hmsg]

/-- Full description of a p0 chat submit with a passing guard and a failing
call; the session list is not refreshed. -/
theorem chatSubmit_p0_err (st : AppState) (sid msg : String)
    (resp : FetchResult ChatData)
    (hs : st.activeSessionId = some sid) (hsid : sid ≠ "")
    (hne : jsTrim st.inputValue ≠ "")
    (hmsg : caughtMessage resp ChatData.error "Failed to get a response." = some msg) :
    chatSubmit_p0 st resp =
      { state := { st with
          chatBox := { hasHeader := false, items := st.chatBox.items ++
            [.bubble "user" (.plainText (jsTrim st.inputValue)),
             .bubble "error" (.markdownHtml ("Sorry, an error occurred: " ++ msg))] },
          inputValue := "", inputEnabled := true },
        requests := [chatRequest sid (jsTrim st.inputValue)],
        calledFetchAllSessions := false, guardPassed := true,
        disabledDuring := true, showedThinking := true } := by
  have hguard : ¬(jsTrim st.inputValue = "" ∨ ¬ jsTruthy st.activeSessionId = true) := by
    rw [hs]; simp [jsTruthy, hne, hsid]
  cases resp with
  | success ok d =>
      cases ok with
      | true => simp [caughtMessage] at hmsg
      | false =>
          simp only [caughtMessage, Option.some_inj] at hmsg
          simp only [chatSubmit_p0]
          rw [if_neg hguard]
          simp [hs, appendMessageToChat, showThinkingIndicator, updateThinkingIndicator,
            enableChatInput, chatRequest, hmsg]
  | networkError m =>
      simp only [caughtMessage, Option.some_inj] at hmsg
      simp only [chatSubmit_p0]
      rw [if_neg hguard]
      simp [hs, appendMessageToChat, showThinkingIndicator, updateThinkingIndicator,
        enableChatInput, chatRequest, hmsg]

/-- Full description of a p1 chat submit with a passing guard and a failing
call; the session list is not refreshed. -/
theorem chatSubmit_p1_err (st : AppState) (sid msg : String)
    (resp : FetchResult ChatData)
    (hs : st.activeSessionId = some sid) (hsid : sid ≠ "")
    (hne : jsTrim st.inputValue ≠ "")
    (hmsg : caughtMessage resp ChatData.error "Failed to get a response." = some msg) :
    chatSubmit_p1 st resp =
      { state := { st with
          chatBox := { hasHeader := false, items := st.chatBox.items ++
            [.bubble "user" (.plainText (jsTrim st.inputValue)),
             .bubble "error" (.markdownHtml ("Sorry, an error occurred: " ++ msg))] },
          inputValue := "", inputEnabled := true },
        requests := [chatRequest sid (jsTrim st.inputValue)],
        calledFetchAllSessions := false, guardPassed := true,
        disabledDuring := true, showedThinking := true } := by
  have hguard : ¬(jsTrim st.inputValue = "" ∨ ¬ jsTruthy st.activeSessionId = true) := by
    rw [hs]; simp [jsTruthy, hne, hsid]
  cases resp with
  | success ok d =>
      cases ok with
      | true => simp [caughtMessage] at hmsg
      | false =>
          simp only [caughtMessage, Option.some_inj] at hmsg
          simp only [chatSubmit_p1]
          rw [if_neg hguard]
          simp [hs, appendMessageToChat, showThinkingIndicator, updateThinkingIndicator,
            enableChatInput, chatRequest, hmsg]
  | networkError m =>
      simp only [caughtMessage, Option.some_inj] at hmsg
      simp only [chatSubmit_p1]
      rw [if_neg hguard]
      simp [hs, appendMessageToChat, showThinkingIndicator, updateThinkingIndicator,
        enableChatInput, chatRequest, hmsg]

/-- C2: for every submitted chat message with a non-empty trimmed question and
an active session, each iteration of the client sends the trimmed question
text unchanged as the user_question field of the JSON POST body to /chat
together with the active session id, and on an ok response the bubble that
replaces the thinking placeholder displays exactly the answer field of the
response, handed unchanged to the markdown converter; the handler applies no
other processing to the question or the answer. -/
theorem c2_chat_sends_question_and_displays_answer
    (st : AppState) (sid : String) (data : ChatData)
    (hs : st.activeSessionId = some sid) (hsid : sid ≠ "")
    (hne : jsTrim st.inputValue ≠ "") :
    ((chatSubmit_v1 st (.success true data)).requests
        = [{ url := "/chat", method := .post,
             body := .jsonChat sid (jsTrim st.inputValue) }] ∧
      (chatSubmit_v1 st (.success true data)).state.chatBox.items.getLast?
        = some (.bubble "assistant" (.markdownHtml data.answer))) ∧
    ((chatSubmit_v2 st (.success true data)).requests
        = [{ url := "/chat", method := .post,
             body := .jsonChat sid (jsTrim st.inputValue) }] ∧
      (chatSubmit_v2 st (.success true data)).state.chatBox.items.getLast?
        = some (.bubble "assistant" (.markdownHtml data.answer))) ∧
    ((chatSubmit_p0 st (.success true data)).requests
        = [{ url := "/chat", method := .post,
             body := .jsonChat sid (jsTrim st.inputValue) }] ∧
      (chatSubmit_p0 st (.success true data)).state.chatBox.items.getLast?
        = some (.bubble "assistant" (.markdownHtml data.answer))) ∧
    ((chatSubmit_p1 st (.success true data)).requests
        = [{ url := "/chat", method := .post,
             body := .jsonChat sid (jsTrim st.inputValue) }] ∧
      (chatSubmit_p1 st (.success true data)).state.chatBox.items.getLast?
        = some (.bubble "assistant" (.markdownHtml data.answer))) := by
  rw [chatSubmit_v1_ok st sid data hs hsid hne, chatSubmit_v2_ok st sid data hs hsid hne,
    chatSubmit_p0_ok st sid data hs hsid hne, chatSubmit_p1_ok st sid data hs hsid hne]
  simp [chatRequest]

/-- Witness for C2 at the sample state and a concrete answer. -/
theorem c2_witness :
    (chatSubmit_v1 sampleState
        (.success true { answer := "It has 3 pages.", error := "" })).requests
      = [{ url := "/chat", method := .post,
           body := .jsonChat "s1" "How many pages?" }] :=
  ((c2_chat_sends_question_and_displays_answer sampleState "s1"
      { answer := "It has 3 pages.", error := "" }
      (by decide) (by decide) (by decide)).1).1

/-- C7: the four iterations realise the chat-send operation identically: with
the same non-empty trimmed question and the same active session, every
iteration issues the same single POST of the JSON body to /chat, disables the
input while the request is in flight, shows the thinking placeholder,
re-enables the input, and on success replaces the placeholder with the same
rendered answer bubble, so their transcripts agree.  The refresh of the
session list that the later iterations perform after success is recorded by
the calledFetchAllSessions flag and lies outside the observables the claim
names. -/
theorem c7_chat_iterations_agree
    (st : AppState) (sid : String) (data : ChatData)
    (hs : st.activeSessionId = some sid) (hsid : sid ≠ "")
    (hne : jsTrim st.inputValue ≠ "") :
    ((chatSubmit_v1 st (.success true data)).requests
        = [chatRequest sid (jsTrim st.inputValue)] ∧
     (chatSubmit_v2 st (.success true data)).requests
        = (chatSubmit_v1 st (.success true data)).requests ∧
     (chatSubmit_p0 st (.success true data)).requests
        = (chatSubmit_v1 st (.success true data)).requests ∧
     (chatSubmit_p1 st (.success true data)).requests
        = (chatSubmit_v1 st (.success true data)).requests) ∧
    ((chatSubmit_v1 st (.success true data)).disabledDuring = true ∧
     (chatSubmit_v2 st (.success true data)).disabledDuring = true ∧
     (chatSubmit_p0 st (.success true data)).disabledDuring = true ∧
     (chatSubmit_p1 st (.success true data)).disabledDuring = true) ∧
    ((chatSubmit_v1 st (.success true data)).showedThinking = true ∧
     (chatSubmit_v2 st (.success true data)).showedThinking = true ∧
     (chatSubmit_p0 st (.success true data)).showedThinking = true ∧
     (chatSubmit_p1 st (.success true data)).showedThinking = true) ∧
    ((chatSubmit_v1 st (.success true data)).state.inputEnabled = true ∧
     (chatSubmit_v2 st (.success true data)).state.inputEnabled = true ∧
     (chatSubmit_p0 st (.success true data)).state.inputEnabled = true ∧
     (chatSubmit_p1 st (.success true data)).state.inputEnabled = true) ∧
    ((chatSubmit_v1 st (.success true data)).state.chatBox.items
        = st.chatBox.items ++
          [.bubble "user" (.plainText (jsTrim st.inputValue)),
           .bubble "assistant" (.markdownHtml data.answer)] ∧
     (chatSubmit_v2 st (.success true data)).state.chatBox.items
        = (chatSubmit_v1 st (.success true data)).state.chatBox.items ∧
     (chatSubmit_p0 st (.success true data)).state.chatBox.items
        = (chatSubmit_v1 st (.success true data)).state.chatBox.items ∧
     (chatSubmit_p1 st (.success true data)).state.chatBox.items
        = (chatSubmit_v1 st (.success true data)).state.chatBox.items) := by
  rw [chatSubmit_v1_ok st sid data hs hsid hne, chatSubmit_v2_ok st sid data hs hsid hne,
    chatSubmit_p0_ok st sid data hs hsid hne, chatSubmit_p1_ok st sid data hs hsid hne]
  simp

/-- Witness for C7 at the sample state and a concrete answer. -/
theorem c7_witness :
    (chatSubmit_v1 sampleState (.success true { answer := "Two.", error := "" })).requests
      = [chatRequest "s1" "How many pages?"] :=
  ((c7_chat_iterations_agree sampleState "s1" { answer := "Two.", error := "" }
      (by decide) (by decide) (by decide)).1).1

/-- C5: every width the simulated progress interval writes to the bar is at
most 95 percent, in all four iterations; and among the direct width writes of
the upload handlers, 100 is written exactly on an ok response, while on any
failing response the only direct write is the initial 0. -/
theorem c5_progress_capped :
    (∀ p r w : ℚ, (progressTick_v1 p r).2 = some w → w ≤ 95) ∧
    (∀ p r w : ℚ, (progressTick_v2 p r).2 = some w → w ≤ 95) ∧
    (∀ p r w : ℚ, (progressTick_p0 p r).2 = some w → w ≤ 95) ∧
    (∀ p r w : ℚ, (progressTick_p1 p r).2 = some w → w ≤ 95) ∧
    (∀ (n : Nat) (st : AppState) (data : ProcData), n ≠ 0 →
      (uploadSubmit_v1 n (.success true data) st).widthWrites = [0, 100]) ∧
    (∀ (n : Nat) (st : AppState) (data : ProcData), n ≠ 0 →
      (uploadSubmit_v2 n (.success true data) st).widthWrites = [0, 100]) ∧
    (∀ (n : Nat) (st : AppState) (data : ProcData), n ≠ 0 →
      (processNewSession_p n (.success true data) st).widthWrites = [0, 100]) ∧
    (∀ (n : Nat) (st : AppState) (data : ProcData),
      (100 : ℚ) ∉ (uploadSubmit_v1 n (.success false data) st).widthWrites) ∧
    (∀ (n : Nat) (st : AppState) (m : String),
      (100 : ℚ) ∉ (uploadSubmit_v1 n (.networkError m) st).widthWrites) ∧
    (∀ (n : Nat) (st : AppState) (data : ProcData),
      (100 : ℚ) ∉ (uploadSubmit_v2 n (.success false data) st).widthWrites) ∧
    (∀ (n : Nat) (st : AppState) (m : String),
      (100 : ℚ) ∉ (uploadSubmit_v2 n (.networkError m) st).widthWrites) ∧
    (∀ (n : Nat) (st : AppState) (data : ProcData),
      (100 : ℚ) ∉ (processNewSession_p n (.success false data) st).widthWrites) ∧
    (∀ (n : Nat) (st : AppState) (m : String),
      (100 : ℚ) ∉ (processNewSession_p n (.networkError m) st).widthWrites) := by
  refine ⟨?_, ?_, ?_, ?_, ?_, ?_, ?_, ?_, ?_, ?_, ?_, ?_, ?_⟩
  · intro p r w h
    simp only [progressTick_v1, Option.some_inj] at h
    subst h
    split
    · exact le_refl _
    · exact le_of_not_lt (by assumption)
  · intro p r w h
    simp only [progressTick_v2] at h
    split at h
    next hlt => injection h with h; subst h; exact le_of_lt hlt
    next => exact absurd h (by simp)
  · intro p r w h
    simp only [progressTick_p0] at h
    split at h
    next hlt => injection h with h; subst h; exact le_of_lt hlt
    next => exact absurd h (by simp)
  · intro p r w h
    simp only [progressTick_p1] at h
    split at h
    next hlt => injection h with h; subst h; exact le_of_lt hlt
    next => exact absurd h (by simp)
  · intro n st data hn; simp [uploadSubmit_v1, hn, showStatus, enableChatInput]
  · intro n st data hn; simp [uploadSubmit_v2, hn, showStatus]
  · intro n st data hn; simp [processNewSession_p, hn, showStatus]
  · intro n st data
    by_cases hn : n = 0 <;>
      simp [uploadSubmit_v1, hn, showStatus, enableChatInput]
  · intro n st m
    by_cases hn : n = 0 <;>
      simp [uploadSubmit_v1, hn, showStatus, enableChatInput]
  · intro n st data
    by_cases hn : n = 0 <;> simp [uploadSubmit_v2, hn, showStatus]
  · intro n st m
    by_cases hn : n = 0 <;> simp [uploadSubmit_v2, hn, showStatus]
  · intro n st data
    by_cases hn : n = 0 <;> simp [processNewSession_p, hn, showStatus]
  · intro n st m
    by_cases hn : n = 0 <;> simp [processNewSession_p, hn, showStatus]

/-- Witness for C5: a concrete tick that clamps to exactly 95. -/
theorem c5_witness :
    ((progressTick_v1 90 1).2 = some 95) ∧ ((95 : ℚ) ≤ 95) :=
  ⟨by norm_num [progressTick_v1], c5_progress_capped.1 90 1 95 (by norm_num [progressTick_v1])⟩

/-- The chat request always targets the /chat endpoint. -/
theorem chatRequest_endpoint (sid q : String) :
    isActualEndpoint (chatRequest sid q) = true := rfl

/-- The session-loading request always targets /get_session/:id. -/
theorem getSessionRequest_endpoint (sid : String) :
    isActualEndpoint (getSessionRequest sid) = true := by
  simp [isActualEndpoint, isClaimedEndpoint, getSessionRequest, data_isPrefixOf_append]

/-- The deletion request always targets /delete_session/:id. -/
theorem deleteRequest_endpoint (sid : String) :
    isActualEndpoint { url := "/delete_session/" ++ sid, method := .del, body := .empty }
      = true := by
  simp [isActualEndpoint, isClaimedEndpoint, data_isPrefixOf_append]

/-- The requests a chat submit can issue: none at the guard, or the single
POST to /chat. -/
theorem chatSubmit_v1_requests_eq (st : AppState) (rc : FetchResult ChatData) :
    (chatSubmit_v1 st rc).requests = [] ∨
    (chatSubmit_v1 st rc).requests
      = [chatRequest (st.activeSessionId.getD "") (jsTrim st.inputValue)] := by
  simp only [chatSubmit_v1]
  by_cases hg : jsTrim st.inputValue = "" ∨ ¬ jsTruthy st.activeSessionId = true
  · rw [if_pos hg]; left; rfl
  · rw [if_neg hg]; right; rfl

/-- The requests a v2 chat submit can issue. -/
theorem chatSubmit_v2_requests_eq (st : AppState) (rc : FetchResult ChatData) :
    (chatSubmit_v2 st rc).requests = [] ∨
    (chatSubmit_v2 st rc).requests
      = [chatRequest (st.activeSessionId.getD "") (jsTrim st.inputValue)] := by
  simp only [chatSubmit_v2]
  by_cases hg : jsTrim st.inputValue = "" ∨ ¬ jsTruthy st.activeSessionId = true
  · rw [if_pos hg]; left; rfl
  · rw [if_neg hg]; right; rfl

/-- The requests a p0 chat submit can issue. -/
theorem chatSubmit_p0_requests_eq (st : AppState) (rc : FetchResult ChatData) :
    (chatSubmit_p0 st rc).requests = [] ∨
    (chatSubmit_p0 st rc).requests
      = [chatRequest (st.activeSessionId.getD "") (jsTrim st.inputValue)] := by
  simp only [chatSubmit_p0]
  by_cases hg : jsTrim st.inputValue = "" ∨ ¬ jsTruthy st.activeSessionId = true
  · rw [if_pos hg]; left; rfl
  · rw [if_neg hg]; right; rfl

/-- The requests a p1 chat submit can issue. -/
theorem chatSubmit_p1_requests_eq (st : AppState) (rc : FetchResult ChatData) :
    (chatSubmit_p1 st rc).requests = [] ∨
    (chatSubmit_p1 st rc).requests
      = [chatRequest (st.activeSessionId.getD "") (jsTrim st.inputValue)] := by
  simp only [chatSubmit_p1]
  by_cases hg : jsTrim st.inputValue = "" ∨ ¬ jsTruthy st.activeSessionId = true
  · rw [if_pos hg]; left; rfl
  · rw [if_neg hg]; right; rfl

/-- Every variant of switchSession issues exactly the /get_session request. -/
theorem switchSession_requests_eq (sid : String) (resp : FetchResult SessionData)
    (st : AppState) :
    (switchSession_v2 sid resp st).requests = [getSessionRequest sid] ∧
    (switchSession_p0 sid resp st).requests = [getSessionRequest sid] ∧
    (switchSession_p1 sid resp st).requests = [getSessionRequest sid] := by
  refine ⟨?_, ?_, ?_⟩ <;>
    (cases resp with
     | success ok d => cases ok <;> rfl
     | networkError m => rfl)

/-- deleteSession issues exactly the /delete_session request. -/
theorem deleteSession_requests_eq (sid : String) (resp : FetchResult DeleteData)
    (st : AppState) :
    (deleteSession sid resp st).requests
      = [{ url := "/delete_session/" ++ sid, method := .del, body := .empty }] := by
  cases resp with
  | success ok d => cases ok <;> rfl
  | networkError m => rfl

/-- Both fetchAllSessions variants issue exactly the /get_all_sessions
request. -/
theorem fetchAllSessions_requests_eq (resp : FetchResult (List SessionEntry))
    (st : AppState) :
    (fetchAllSessions_p0 resp st).requests = [getAllSessionsRequest] ∧
    (fetchAllSessions_p1 resp st).requests = [getAllSessionsRequest] := by
  refine ⟨?_, ?_⟩ <;>
    (cases resp with
     | success ok d => cases ok <;> rfl
     | networkError m => rfl)

/-- The requests a v1 upload submit can issue: none at the guard, or the
single POST to /process_pdfs. -/
theorem uploadSubmit_v1_requests_eq (n : Nat) (resp : FetchResult ProcData)
    (st : AppState) :
    (uploadSubmit_v1 n resp st).requests = [] ∨
    (uploadSubmit_v1 n resp st).requests
      = [{ url := "/process_pdfs", method := .post, body := .formData }] := by
  simp only [uploadSubmit_v1]
  by_cases hg : n = 0
  · rw [if_pos hg]; left; rfl
  · rw [if_neg hg]
    cases resp with
    | success ok d => cases ok <;> (right; rfl)
    | networkError m => right; rfl

/-- The requests a v2 upload submit can issue. -/
theorem uploadSubmit_v2_requests_eq (n : Nat) (resp : FetchResult ProcData)
    (st : AppState) :
    (uploadSubmit_v2 n resp st).requests = [] ∨
    (uploadSubmit_v2 n resp st).requests
      = [{ url := "/process_pdfs", method := .post, body := .formData }] := by
  simp only [uploadSubmit_v2]
  by_cases hg : n = 0
  · rw [if_pos hg]; left; rfl
  · rw [if_neg hg]
    cases resp with
    | success ok d => cases ok <;> (right; rfl)
    | networkError m => right; rfl

/-- The requests a p0/p1 upload submit can issue: none at the guard, or the
single POST to /process_files. -/
theorem processNewSession_p_requests_eq (n : Nat) (resp : FetchResult ProcData)
    (st : AppState) :
    (processNewSession_p n resp st).requests = [] ∨
    (processNewSession_p n resp st).requests
      = [{ url := "/process_files", method := .post, body := .formData }] := by
  simp only [processNewSession_p]
  by_cases hg : n = 0
  · rw [if_pos hg]; left; rfl
  · rw [if_neg hg]
    cases resp with
    | success ok d => cases ok <;> (right; rfl)
    | networkError m => right; rfl

/-- C1 (amended): every network request issued by any operation of any script
iteration targets one of the six backend endpoints /process_pdfs (POST, the
upload endpoint of the two script.js iterations), /process_files (POST, the
upload endpoint of the part_000/part_001 iterations), /chat (POST),
/get_all_sessions (GET), /get_session/:id (GET) or /delete_session/:id
(DELETE); no operation ever fetches any other URL. -/
theorem c1_requests_within_actual_endpoints :
    (∀ (st : AppState) (rc : FetchResult ChatData) (r : Request),
      r ∈ (chatSubmit_v1 st rc).requests → isActualEndpoint r = true) ∧
    (∀ (st : AppState) (rc : FetchResult ChatData) (r : Request),
      r ∈ (chatSubmit_v2 st rc).requests → isActualEndpoint r = true) ∧
    (∀ (st : AppState) (rc : FetchResult ChatData) (r : Request),
      r ∈ (chatSubmit_p0 st rc).requests → isActualEndpoint r = true) ∧
    (∀ (st : AppState) (rc : FetchResult ChatData) (r : Request),
      r ∈ (chatSubmit_p1 st rc).requests → isActualEndpoint r = true) ∧
    (∀ (sid : String) (resp : FetchResult SessionData) (st : AppState) (r : Request),
      r ∈ (switchSession_v2 sid resp st).requests → isActualEndpoint r = true) ∧
    (∀ (sid : String) (resp : FetchResult SessionData) (st : AppState) (r : Request),
      r ∈ (switchSession_p0 sid resp st).requests → isActualEndpoint r = true) ∧
    (∀ (sid : String) (resp : FetchResult SessionData) (st : AppState) (r : Request),
      r ∈ (switchSession_p1 sid resp st).requests → isActualEndpoint r = true) ∧
    (∀ (sid : String) (resp : FetchResult DeleteData) (st : AppState) (r : Request),
      r ∈ (deleteSession sid resp st).requests → isActualEndpoint r = true) ∧
    (∀ (resp : FetchResult (List SessionEntry)) (st : AppState) (r : Request),
      r ∈ (fetchAllSessions_p0 resp st).requests → isActualEndpoint r = true) ∧
    (∀ (resp : FetchResult (List SessionEntry)) (st : AppState) (r : Request),
      r ∈ (fetchAllSessions_p1 resp st).requests → isActualEndpoint r = true) ∧
    (∀ (n : Nat) (resp : FetchResult ProcData) (st : AppState) (r : Request),
      r ∈ (uploadSubmit_v1 n resp st).requests → isActualEndpoint r = true) ∧
    (∀ (n : Nat) (resp : FetchResult ProcData) (st : AppState) (r : Request),
      r ∈ (uploadSubmit_v2 n resp st).requests → isActualEndpoint r = true) ∧
    (∀ (n : Nat) (resp : FetchResult ProcData) (st : AppState) (r : Request),
      r ∈ (processNewSession_p n resp st).requests → isActualEndpoint r = true) := by
  refine ⟨?_, ?_, ?_, ?_, ?_, ?_, ?_, ?_, ?_, ?_, ?_, ?_, ?_⟩
  · intro st rc r hr
    rcases chatSubmit_v1_requests_eq st rc with h | h <;> rw [h] at hr
    · simp at hr
    · simp at hr; subst hr; exact chatRequest_endpoint _ _
  · intro st rc r hr
    rcases chatSubmit_v2_requests_eq st rc with h | h <;> rw [h] at hr
    · simp at hr
    · simp at hr; subst hr; exact chatRequest_endpoint _ _
  · intro st rc r hr
    rcases chatSubmit_p0_requests_eq st rc with h | h <;> rw [h] at hr
    · simp at hr
    · simp at hr; subst hr; exact chatRequest_endpoint _ _
  · intro st rc r hr
    rcases chatSubmit_p1_requests_eq st rc with h | h <;> rw [h] at hr
    · simp at hr
    · simp at hr; subst hr; exact chatRequest_endpoint _ _
  · intro sid resp st r hr
    rw [(switchSession_requests_eq sid resp st).1] at hr
    simp at hr; subst hr; exact getSessionRequest_endpoint _
  · intro sid resp st r hr
    rw [(switchSession_requests_eq sid resp st).2.1] at hr
    simp at hr; subst hr; exact getSessionRequest_endpoint _
  · intro sid resp st r hr
    rw [(switchSession_requests_eq sid resp st).2.2] at hr
    simp at hr; subst hr; exact getSessionRequest_endpoint _
  · intro sid resp st r hr
    rw [deleteSession_requests_eq sid resp st] at hr
    simp at hr; subst hr; exact deleteRequest_endpoint _
  · intro resp st r hr
    rw [(fetchAllSessions_requests_eq resp st).1] at hr
    simp at hr; subst hr; rfl
  · intro resp st r hr
    rw [(fetchAllSessions_requests_eq resp st).2] at hr
    simp at hr; subst hr; rfl
  · intro n resp st r hr
    rcases uploadSubmit_v1_requests_eq n resp st with h | h <;> rw [h] at hr
    · simp at hr
    · simp at hr; subst hr; rfl
  · intro n resp st r hr
    rcases uploadSubmit_v2_requests_eq n resp st with h | h <;> rw [h] at hr
    · simp at hr
    · simp at hr; subst hr; rfl
  · intro n resp st r hr
    rcases processNewSession_p_requests_eq n resp st with h | h <;> rw [h] at hr
    · simp at hr
    · simp at hr; subst hr; rfl

/-- C1 counterexample: the upload handler of the script.js iterations posts to
/process_pdfs, a request that is not among the five endpoints the claim
lists. -/
theorem c1_counterexample :
    ({ url := "/process_pdfs", method := .post, body := .formData } : Request)
        ∈ (uploadSubmit_v1 1 (.networkError "down") sampleState).requests ∧
    isClaimedEndpoint { url := "/process_pdfs", method := .post, body := .formData }
      = false := by
  decide

/-- Witness for C1 at a concrete chat request of the sample state. -/
theorem c1_witness :
    isActualEndpoint (chatRequest "s1" "How many pages?") = true :=
  c1_requests_within_actual_endpoints.1 sampleState (.networkError "x")
    (chatRequest "s1" "How many pages?") (by decide)

/-- C3 (amended): every failing backend call (a rejected fetch or a non-OK
response) is caught by the enclosing try/catch; the process, chat,
switch-session and delete-session operations of every iteration report it by
displaying the caught error message in the UI (the status line, or an error
chat bubble for chat), while the fetch-sessions operation of p0 and p1
replaces the session list with the fixed notice about unloadable history and
only logs the error itself to the console; in every case exactly the one
failing request was issued and no retry or other recovery action is
performed. -/
theorem c3_failures_reported_without_retry :
    (∀ (st : AppState) (n : Nat) (resp : FetchResult ProcData) (msg : String),
      n ≠ 0 →
      caughtMessage resp ProcData.error "Failed to process PDFs." = some msg →
      (uploadSubmit_v1 n resp st).state.statusText = "Error: " ++ msg ∧
      (uploadSubmit_v1 n resp st).state.statusType = "error" ∧
      (uploadSubmit_v1 n resp st).requests
        = [{ url := "/process_pdfs", method := .post, body := .formData }] ∧
      (uploadSubmit_v1 n resp st).switchedTo = none ∧
      (uploadSubmit_v1 n resp st).calledFetchAllSessions = false) ∧
    (∀ (st : AppState) (n : Nat) (resp : FetchResult ProcData) (msg : String),
      n ≠ 0 →
      caughtMessage resp ProcData.error "Failed to process PDFs." = some msg →
      (uploadSubmit_v2 n resp st).state.statusText = "Error: " ++ msg ∧
      (uploadSubmit_v2 n resp st).state.statusType = "error" ∧
      (uploadSubmit_v2 n resp st).requests
        = [{ url := "/process_pdfs", method := .post, body := .formData }] ∧
      (uploadSubmit_v2 n resp st).switchedTo = none ∧
      (uploadSubmit_v2 n resp st).calledFetchAllSessions = false) ∧
    (∀ (st : AppState) (n : Nat) (resp : FetchResult ProcData) (msg : String),
      n ≠ 0 →
      caughtMessage resp ProcData.error "Failed to process documents." = some msg →
      (processNewSession_p n resp st).state.statusText = "Error: " ++ msg ∧
      (processNewSession_p n resp st).state.statusType = "error" ∧
      (processNewSession_p n resp st).requests
        = [{ url := "/process_files", method := .post, body := .formData }] ∧
      (processNewSession_p n resp st).switchedTo = none ∧
      (processNewSession_p n resp st).calledFetchAllSessions = false) ∧
    (∀ (st : AppState) (sid msg : String) (resp : FetchResult ChatData),
      st.activeSessionId = some sid → sid ≠ "" → jsTrim st.inputValue ≠ "" →
      caughtMessage resp ChatData.error "Failed to get a response." = some msg →
      (chatSubmit_v1 st resp).state.chatBox.items.getLast?
        = some (.bubble "error" (.markdownHtml ("Sorry, an error occurred: " ++ msg))) ∧
      (chatSubmit_v1 st resp).requests = [chatRequest sid (jsTrim st.inputValue)] ∧
      (chatSubmit_v1 st resp).calledFetchAllSessions = false) ∧
    (∀ (st : AppState) (sid msg : String) (resp : FetchResult ChatData),
      st.activeSessionId = some sid → sid ≠ "" → jsTrim st.inputValue ≠ "" →
      caughtMessage resp ChatData.error "Failed to get a response." = some msg →
      (chatSubmit_v2 st resp).state.chatBox.items.getLast?
        = some (.bubble "error" (.markdownHtml ("Sorry, an error occurred: " ++ msg))) ∧
      (chatSubmit_v2 st resp).requests = [chatRequest sid (jsTrim st.inputValue)] ∧
      (chatSubmit_v2 st resp).calledFetchAllSessions = false) ∧
    (∀ (st : AppState) (sid msg : String) (resp : FetchResult ChatData),
      st.activeSessionId = some sid → sid ≠ "" → jsTrim st.inputValue ≠ "" →
      caughtMessage resp ChatData.error "Failed to get a response." = some msg →
      (chatSubmit_p0 st resp).state.chatBox.items.getLast?
        = some (.bubble "error" (.markdownHtml ("Sorry, an error occurred: " ++ msg))) ∧
      (chatSubmit_p0 st resp).requests = [chatRequest sid (jsTrim st.inputValue)] ∧
      (chatSubmit_p0 st resp).calledFetchAllSessions = false) ∧
    (∀ (st : AppState) (sid msg : String) (resp : FetchResult ChatData),
      st.activeSessionId = some sid → sid ≠ "" → jsTrim st.inputValue ≠ "" →
      caughtMessage resp ChatData.error "Failed to get a response." = some msg →
      (chatSubmit_p1 st resp).state.chatBox.items.getLast?
        = some (.bubble "error" (.markdownHtml ("Sorry, an error occurred: " ++ msg))) ∧
      (chatSubmit_p1 st resp).requests = [chatRequest sid (jsTrim st.inputValue)] ∧
      (chatSubmit_p1 st resp).calledFetchAllSessions = false) ∧
    (∀ (sid msg : String) (resp : FetchResult SessionData) (st : AppState),
      caughtMessage resp SessionData.error "Failed to load session." = some msg →
      (switchSession_v2 sid resp st).state.statusText
        = "Error switching session: " ++ msg ∧
      (switchSession_v2 sid resp st).state.statusType = "error" ∧
      (switchSession_v2 sid resp st).requests = [getSessionRequest sid]) ∧
    (∀ (sid msg : String) (resp : FetchResult SessionData) (st : AppState),
      caughtMessage resp SessionData.error "Failed to load session." = some msg →
      (switchSession_p0 sid resp st).state.statusText
        = "Error switching session: " ++ msg ∧
      (switchSession_p0 sid resp st).state.statusType = "error" ∧
      (switchSession_p0 sid resp st).requests = [getSessionRequest sid]) ∧
    (∀ (sid msg : String) (resp : FetchResult SessionData) (st : AppState),
      caughtMessage resp SessionData.error "Failed to load session." = some msg →
      (switchSession_p1 sid resp st).state.statusText
        = "Error switching session: " ++ msg ∧
      (switchSession_p1 sid resp st).state.statusType = "error" ∧
      (switchSession_p1 sid resp st).requests = [getSessionRequest sid]) ∧
    (∀ (sid msg : String) (resp : FetchResult DeleteData) (st : AppState),
      caughtMessage resp DeleteData.error "Failed to delete session." = some msg →
      (deleteSession sid resp st).state.statusText = "Error: " ++ msg ∧
      (deleteSession sid resp st).state.statusType = "error" ∧
      (deleteSession sid resp st).requests
        = [{ url := "/delete_session/" ++ sid, method := .del, body := .empty }]) ∧
    (∀ (msg : String) (resp : FetchResult (List SessionEntry)) (st : AppState),
      caughtMessage resp (fun _ => "") "Failed to load sessions from server."
        = some msg →
      (fetchAllSessions_p0 resp st).state.sessionsNotice
        = some "Could not load history." ∧
      (fetchAllSessions_p0 resp st).state.statusText = st.statusText ∧
      (fetchAllSessions_p0 resp st).state.chatBox = st.chatBox ∧
      (fetchAllSessions_p0 resp st).requests = [getAllSessionsRequest]) ∧
    (∀ (msg : String) (resp : FetchResult (List SessionEntry)) (st : AppState),
      caughtMessage resp (fun _ => "") "Failed to load sessions from server."
        = some msg →
      (fetchAllSessions_p1 resp st).state.sessionsNotice
        = some "Could not load history." ∧
      (fetchAllSessions_p1 resp st).state.statusText = st.statusText ∧
      (fetchAllSessions_p1 resp st).state.chatBox = st.chatBox ∧
      (fetchAllSessions_p1 resp st).requests = [getAllSessionsRequest]) := by
  refine ⟨?_, ?_, ?_, ?_, ?_, ?_, ?_, ?_, ?_, ?_, ?_, ?_, ?_⟩
  · intro st n resp msg hn hmsg
    cases resp with
    | success ok d =>
        cases ok with
        | true => simp [caughtMessage] at hmsg
        | false =>
            simp only [caughtMessage, Option.some_inj] at hmsg
            unfold uploadSubmit_v1
            rw [if_neg hn]
            simp [showStatus, enableChatInput, hmsg]
    | networkError m =>
        simp only [caughtMessage, Option.some_inj] at hmsg
        unfold uploadSubmit_v1
        rw [if_neg hn]
        simp [showStatus, enableChatInput, hmsg]
  · intro st n resp msg hn hmsg
    cases resp with
    | success ok d =>
        cases ok with
        | true => simp [caughtMessage] at hmsg
        | false =>
            simp only [caughtMessage, Option.some_inj] at hmsg
            unfold uploadSubmit_v2
            rw [if_neg hn]
            simp [showStatus, hmsg]
    | networkError m =>
        simp only [caughtMessage, Option.some_inj] at hmsg
        unfold uploadSubmit_v2
        rw [if_neg hn]
        simp [showStatus, hmsg]
  · intro st n resp msg hn hmsg
    cases resp with
    | success ok d =>
        cases ok with
        | true => simp [caughtMessage] at hmsg
        | false =>
            simp only [caughtMessage, Option.some_inj] at hmsg
            unfold processNewSession_p
            rw [if_neg hn]
            simp [showStatus, hmsg]
    | networkError m =>
        simp only [caughtMessage, Option.some_inj] at hmsg
        unfold processNewSession_p
        rw [if_neg hn]
        simp [showStatus, hmsg]
  · intro st sid msg resp hs hsid hne hmsg
    rw [chatSubmit_v1_err st sid msg resp hs hsid hne hmsg]
    simp
  · intro st sid msg resp hs hsid hne hmsg
    rw [chatSubmit_v2_err st sid msg resp hs hsid hne hmsg]
    simp
  · intro st sid msg resp hs hsid hne hmsg
    rw [chatSubmit_p0_err st sid msg resp hs hsid hne hmsg]
    simp
  · intro st sid msg resp hs hsid hne hmsg
    rw [chatSubmit_p1_err st sid msg resp hs hsid hne hmsg]
    simp
  · intro sid msg resp st hmsg
    cases resp with
    | success ok d =>
        cases ok with
        | true => simp [caughtMessage] at hmsg
        | false =>
            simp only [caughtMessage, Option.some_inj] at hmsg
            simp [switchSession_v2, showStatus, hmsg]
    | networkError m =>
        simp only [caughtMessage, Option.some_inj] at hmsg
        simp [switchSession_v2, showStatus, hmsg]
  · intro sid msg resp st hmsg
    cases resp with
    | success ok d =>
        cases ok with
        | true => simp [caughtMessage] at hmsg
        | false =>
            simp only [caughtMessage, Option.some_inj] at hmsg
            simp [switchSession_p0, showStatus, enableChatInput, hmsg]
    | networkError m =>
        simp only [caughtMessage, Option.some_inj] at hmsg
        simp [switchSession_p0, showStatus, enableChatInput, hmsg]
  · intro sid msg resp st hmsg
    cases resp with
    | success ok d =>
        cases ok with
        | true => simp [caughtMessage] at hmsg
        | false =>
            simp only [caughtMessage, Option.some_inj] at hmsg
            simp [switchSession_p1, showStatus, enableChatInput, hmsg]
    | networkError m =>
        simp only [caughtMessage, Option.some_inj] at hmsg
        simp [switchSession_p1, showStatus, enableChatInput, hmsg]
  · intro sid msg resp st hmsg
    cases resp with
    | success ok d =>
        cases ok with
        | true => simp [caughtMessage] at hmsg
        | false =>
            simp only [caughtMessage, Option.some_inj] at hmsg
            simp [deleteSession, showStatus, hmsg]
    | networkError m =>
        simp only [caughtMessage, Option.some_inj] at hmsg
        simp [deleteSession, showStatus, hmsg]
  · intro msg resp st hmsg
    cases resp with
    | success ok d =>
        cases ok with
        | true => simp [caughtMessage] at hmsg
        | false => simp [fetchAllSessions_p0]
    | networkError m => simp [fetchAllSessions_p0]
  · intro msg resp st hmsg
    cases resp with
    | success ok d =>
        cases ok with
        | true => simp [caughtMessage] at hmsg
        | false => simp [fetchAllSessions_p1]
    | networkError m => simp [fetchAllSessions_p1]

/-- C3 counterexample: when loading the session list fails, the catch shows a
fixed notice inside the session list; the error message itself appears
neither in the status line nor in any chat bubble, so this operation does not
display the error message in the claimed places. -/
theorem c3_counterexample :
    (fetchAllSessions_p0 (.networkError "boom") sampleState).state.statusText = "" ∧
    (fetchAllSessions_p0 (.networkError "boom") sampleState).state.chatBox
      = sampleState.chatBox ∧
    (fetchAllSessions_p0 (.networkError "boom") sampleState).state.sessionsNotice
      = some "Could not load history." := by
  decide

/-- Witness for C3 at a concrete failing upload. -/
theorem c3_witness :
    (uploadSubmit_v1 1 (.networkError "down") sampleState).state.statusText
      = "Error: down" :=
  (c3_failures_reported_without_retry.1 sampleState 1 (.networkError "down") "down"
    (by decide) rfl).1
